import Mathlib

/-!
Verification of the waveform query engine (`src/waveform_mcp/server.py`):
a caching trace loader, a signal index with regex filtering, a step-by-step
transition scanner, an expression-execution wrapper with classified error
suggestions, and an example synthesizer.

The external WAL collaborator (`TraceContainer`, `SEval`) is out of scope of
the repository; it is modelled here by its interface as the spec describes it
(load / step / signal_value / signal_width / signals / evaluate), with the
step primitive advancing a current-time cursor relative to its position
("no random-access seek primitive is assumed").  Regex compilation is
likewise abstracted as a fallible function producing a matcher.
-/

namespace WaveformMcp

/-- Does the character list start with the given pattern list? -/
def charsStartsWith : List Char → List Char → Bool
  | _, [] => true
  | [], _ :: _ => false
  | a :: s, b :: p => a == b && charsStartsWith s p

/-- Does the character list contain the pattern list as a contiguous run?
Mirrors Python's `pat in s` substring test. -/
def charsHasSub : List Char → List Char → Bool
  | [], p => p.isEmpty
  | a :: s, p => charsStartsWith (a :: s) p || charsHasSub s p

/-- Python's `pat in s` substring containment on strings. -/
def strContains (s pat : String) : Bool :=
  charsHasSub s.data pat.data

/-- Python's `s.startswith(pat)` on strings. -/
def strStartsWith (s pat : String) : Bool :=
  charsStartsWith s.data pat.data

/-- Python's `s.lower()` for the ASCII signal names and error messages this
engine handles: lower each character (the same per-character map as core's
`String.toLower`, stated on the character list). -/
def strToLower (s : String) : String :=
  String.mk (s.data.map Char.toLower)

/-- The immutable data of a loaded waveform trace, as exposed by the external
collaborator (spec section 6): an ordered signal-name list, per-signal bit
widths, per-signal values indexed by absolute time, the total number of time
steps, and the message carried by a stepping failure. -/
structure TraceData where
  signals : List String
  width : String → Nat
  val : String → Int → Int
  len : Nat
  stepErrMsg : String

/-- A loaded trace handle: trace data plus the internally mutable current-time
cursor that step operations advance (spec section 3). -/
structure TraceContainer where
  trace : TraceData
  cursor : Int

/-- The external `step(n)` primitive: advances the cursor by `n` relative to
its current position; fails (raises) when the target index leaves the trace
(spec glossary: step is the only time-navigation primitive, no seek). -/
def TraceContainer.stepBy (c : TraceContainer) (n : Int) : Option TraceContainer :=
  let target := c.cursor + n
  if 0 ≤ target ∧ target < (c.trace.len : Int) then
    some { c with cursor := target }
  else
    none

/-- The external `signal_value(name)` primitive: the signal's value at the
cursor's current time. -/
def TraceContainer.signalValue (c : TraceContainer) (sig : String) : Int :=
  c.trace.val sig c.cursor

/-- Modelled from the spec: the external evaluator's result for the fixed
expression `(length (find true))` — "the count of all time steps"
(spec section 4.3).  The evaluator sweep restores the cursor, so the
container is unchanged by this query. -/
def walLengthFindTrue (c : TraceContainer) : Int :=
  (c.trace.len : Int)

/-- Lookup in the process-wide waveform cache (`_waveform_cache`), modelled
as an association list keyed by file path (Python dict membership and
indexing). -/
def lookupCache (cache : List (String × TraceContainer)) (path : String) :
    Option TraceContainer :=
  match cache with
  | [] => none
  | (k, v) :: rest => if k = path then some v else lookupCache rest path

/-- `_load_waveform` (server.py lines 331-345): on a cache hit return the
cached handle; on a miss invoke the external loader, and only on success
insert the new handle.  A loader failure propagates as an exception
(`none` result) and leaves the cache unchanged. -/
def loadWaveform (loader : String → Option TraceContainer)
    (cache : List (String × TraceContainer)) (path : String) :
    Option TraceContainer × List (String × TraceContainer) :=
  match lookupCache cache path with
  | some c => (some c, cache)
  | none =>
    match loader path with
    | none => (none, cache)
    | some c => (some c, (path, c) :: cache)

/-- One rendered signal line of `_get_signal_list` (server.py line 379):
name plus bit width, with singular/plural bit word. -/
def signalLine (c : TraceContainer) (s : String) : String :=
  "  " ++ s ++ " [" ++ toString (c.trace.width s) ++ " " ++
    (if c.trace.width s = 1 then "bit" else "bits") ++ "]"

/-- `_get_signal_list` (server.py lines 348-394), given an already loaded
container.  `compile` abstracts `re.compile`: on success it yields the
matcher `fun s => regex.search s` (substring search semantics), on failure
the compiler's error message (`re.error`).  `patternArg` is the optional
`pattern` argument; an absent argument defaults to `""`, and Python's
`if pattern:` treats the empty string as "no pattern": no regex is compiled
and no filter line is emitted. -/
def getSignalList (compile : String → Except String (String → Bool))
    (wf : String) (c : TraceContainer) (patternArg : Option String) :
    List String :=
  let pattern := patternArg.getD ""
  let allSignals := c.trace.signals
  if pattern.isEmpty then
    let filtered := allSignals
    ["Signals in " ++ wf ++ ":"] ++
      filtered.map (signalLine c) ++
      (if filtered.isEmpty then ["  No signals found in waveform file."] else [])
  else
    match compile pattern with
    | .error e =>
      ["Signals in " ++ wf ++ ":",
       "Invalid regex pattern '" ++ pattern ++ "': " ++ e,
       "Please provide a valid regex pattern."]
    | .ok search =>
      let filtered := allSignals.filter search
      ["Signals in " ++ wf ++ ":", "Filter pattern: " ++ pattern] ++
        filtered.map (signalLine c) ++
        (if filtered.isEmpty then ["  No signals found matching regex pattern."]
         else [])

/-- One rendered transition line (server.py line 449):
`Time {t}: {prev} -> {curr}`. -/
def transLine (t prev curr : Int) : String :=
  "  Time " ++ toString t ++ ": " ++ toString prev ++ " -> " ++ toString curr

/-- The transition-scan while loop (server.py lines 442-453): while
`current < actualEnd`, advance the cursor one step (a stepping failure
breaks out, keeping what was found so far), increment the local time
counter, read the signal, and record a transition whenever the value
differs from the previous one.  The fuel equals the number of remaining
loop iterations `(actualEnd - current).toNat`, so fuel exhaustion coincides
with the loop condition turning false.  Returns the recorded
(time, previous, new) triples, the final local time counter, and the final
container. -/
def scanLoop (sig : String) :
    Nat → TraceContainer → Int → Int →
      List (Int × Int × Int) × Int × TraceContainer
  | 0, c, current, _ => ([], current, c)
  | fuel + 1, c, current, prev =>
    match c.stepBy 1 with
    | none => ([], current, c)
    | some c1 =>
      let current1 := current + 1
      let curr := c1.signalValue sig
      let r := scanLoop sig fuel c1 current1 curr
      if prev = curr then r else ((current1, prev, curr) :: r.1, r.2.1, r.2.2)

/-- `_get_signal_transitions` (server.py lines 397-470), given an already
loaded container.  Returns the rendered report lines and the container as
left behind (its cursor mutated by the scan's step operations).  A missing
signal fails fast before any stepping.  `end_time == 0` is the sentinel for
"unspecified" and resolves the effective end to the trace length minus one
via the external evaluator.  Note that `container.step(start_time)` advances
the cursor by `start_time` relative to wherever it currently is; its failure
is caught by the outer handler and rendered as an error line. -/
def getSignalTransitions (wf : String) (c0 : TraceContainer) (sig : String)
    (startT endT : Int) : List String × TraceContainer :=
  if sig ∉ c0.trace.signals then
    (["Error: Signal '" ++ sig ++ "' not found in " ++ wf], c0)
  else
    let w := c0.trace.width sig
    let header :=
      ["Signal analysis for '" ++ sig ++ "':",
       "  Width: " ++ toString w ++ " " ++ (if w = 1 then "bit" else "bits")]
    let actualEnd := if endT = 0 then walLengthFindTrue c0 - 1 else endT
    match c0.stepBy startT with
    | none =>
      (header ++ ["  Error during transition detection: " ++ c0.trace.stepErrMsg],
       c0)
    | some c1 =>
      let prev := c1.signalValue sig
      let initLine :=
        "  Initial value at time " ++ toString startT ++ ": " ++ toString prev
      let r := scanLoop sig (actualEnd - startT).toNat c1 startT prev
      let transitions := r.1.map (fun p => transLine p.1 p.2.1 p.2.2)
      let transBlock :=
        if transitions.isEmpty then ["", "No transitions detected in time range."]
        else ["", "Transitions detected:"] ++ transitions
      let rangeStr :=
        toString startT ++ " to " ++ toString (if endT = 0 then actualEnd else endT)
      (header ++ [initLine] ++ transBlock ++
        ["", "Time range analyzed: " ++ rangeStr,
         "Total time steps checked: " ++ toString (r.2.1 - startT)],
       r.2.2)

/-- `_get_wal_error_suggestions` (server.py lines 597-638): two independent
substring checks against the lowered error message each append their hint
block; the generic block is appended only when neither fired; the
signal-specific three-example block is appended exactly when the trace
exposes at least one signal, built from the first signal name. -/
def getWalErrorSuggestions (errorMsg : String) (signals : List String) :
    List String :=
  let s1 :=
    if strContains (strToLower errorMsg) "undefined" then
      ["Variable/function not found. Try:",
       "• Check signal names with SIGNALS",
       "• Use exact signal names from your waveform",
       "• Available signals: " ++ String.intercalate ", " (signals.take 5) ++
         (if signals.length > 5 then "..." else "")]
    else []
  let s2 :=
    if strContains (strToLower errorMsg) "argument must be a list" then
      ["Function expects a list. Try:",
       "• (find condition) returns a list of time indices",
       "• (length (find condition)) to count matches",
       "• Use signal names directly: " ++ signals.headD "signal_name"]
    else []
  let base := s1 ++ s2
  let base2 :=
    if base.isEmpty then
      ["Common WAL patterns to try:",
       "• SIGNALS - List all signal names",
       "• (find (= signal_name value)) - Find when signal equals value",
       "• (count condition) - Count occurrences",
       "• (length (find true)) - Total simulation length"]
    else base
  base2 ++
    (match signals with
     | [] => []
     | first :: _ =>
       ["",
        "Examples with your signals (using '" ++ first ++ "'):",
        "• (find (= " ++ first ++ " 1)) - Find when " ++ first ++ " is high",
        "• (count (= " ++ first ++ " 0)) - Count when " ++ first ++ " is low",
        "• (length (find (!= " ++ first ++ " 0))) - Time steps when " ++ first ++
          " != 0"])

/-- The dynamic shape of a value returned by the external evaluator: a scalar
integer or a sequence of integers (the shapes exercised by this engine). -/
inductive WalValue where
  | int (n : Int)
  | list (xs : List Int)
deriving DecidableEq

/-- Python's `str(result)` for evaluator results: `str` of an int, or the
bracketed comma-space rendering of a list. -/
def pyStr : WalValue → String
  | .int n => toString n
  | .list xs => "[" ++ String.intercalate ", " (xs.map toString) ++ "]"

/-- Python's `type(result).__name__`. -/
def pyTypeName : WalValue → String
  | .int _ => "int"
  | .list _ => "list"

/-- `_execute_wal_expression` (server.py lines 507-560), given an already
loaded container's signal list and the outcome of parse-plus-evaluate
(the external `read_wal_sexpr` / `SEval.eval` pipeline, abstracted as an
`Except`: any raised exception's message on the error side).  On success the
full result is rendered on the `Result:` line, and a sequence of more than 5
elements additionally gets a summary block (total length, first 5 indexed
elements, an "... and N more" line).  On failure the raw exception is caught
and rendered with the classified suggestions. -/
def executeWalExpression (wf expr : String)
    (outcome : Except String WalValue) (signals : List String) : List String :=
  match outcome with
  | .ok result =>
    ["WAL Expression: " ++ expr,
     "Waveform file: " ++ wf,
     "",
     "Result: " ++ pyStr result,
     "Result type: " ++ pyTypeName result] ++
    (match result with
     | .list xs =>
       if 5 < xs.length then
         ["Result length: " ++ toString xs.length, "First few elements:"] ++
           (xs.take 5).enum.map
             (fun p => "  [" ++ toString p.1 ++ "]: " ++ toString p.2) ++
           (if 5 < xs.length then
             ["  ... and " ++ toString (xs.length - 5) ++ " more"]
            else [])
       else []
     | _ => [])
  | .error e =>
    ["WAL Expression: " ++ expr,
     "Waveform file: " ++ wf,
     "",
     "Execution Error: " ++ e,
     ""] ++
    getWalErrorSuggestions e signals ++
    ["",
     "For more help: use get_wal_help with topics 'examples', 'functions', or 'debugging'"]

/-- Clock category (server.py line 664): names whose lowering contains
`clk`. -/
def clockSignals (sigs : List String) : List String :=
  sigs.filter (fun s => strContains (strToLower s) "clk")

/-- Reset category (server.py line 665): names whose lowering contains
`reset` or `rst`. -/
def resetSignals (sigs : List String) : List String :=
  sigs.filter (fun s =>
    strContains (strToLower s) "reset" || strContains (strToLower s) "rst")

/-- Counter category (server.py line 666): names whose lowering contains
`counter` or `count`. -/
def counterSignals (sigs : List String) : List String :=
  sigs.filter (fun s =>
    strContains (strToLower s) "counter" || strContains (strToLower s) "count")

/-- Data category (server.py line 667): names not occurring in the
concatenation of the three previous category lists. -/
def dataSignals (sigs : List String) : List String :=
  sigs.filter (fun s =>
    !((clockSignals sigs ++ resetSignals sigs ++ counterSignals sigs).contains s))

/-- `_get_wal_examples` (server.py lines 641-752), given an already loaded
container's signal list (the load-failure path is handled by the cache
model).  An empty signal list yields the single informational line; otherwise
the report emits the basic block, one block per non-empty category (using
that category's first signal), the multi-signal block when at least two
signals exist, and the fixed debugging/timing blocks. -/
def getWalExamples (wf : String) (allSignals : List String) : List String :=
  if allSignals.isEmpty then
    ["No signals found in waveform file"]
  else
    let first := allSignals.headD ""
    ["WAL Examples for " ++ wf,
     String.mk (List.replicate 60 '='),
     "Available signals: " ++ toString allSignals.length ++ " total",
     ""] ++
    ["BASIC SIGNAL ACCESS:",
     "• SIGNALS - List all signals in waveform",
     "• " ++ first ++ " - Get current value of " ++ first,
     "• INDEX - Current time index",
     "• (length (find true)) - Total simulation length",
     ""] ++
    (match clockSignals allSignals with
     | [] => []
     | clk :: _ =>
       ["CLOCK ANALYSIS (using " ++ clk ++ "):",
        "• (find (= " ++ clk ++ " 1)) - Find all clock high times",
        "• (length (find (= " ++ clk ++ " 1))) - Count clock high periods",
        "• (step 0) (find (= " ++ clk ++ " 1)) - Go to start, find clock highs",
        ""]) ++
    (match resetSignals allSignals with
     | [] => []
     | rst :: _ =>
       ["RESET ANALYSIS (using " ++ rst ++ "):",
        "• (find (= " ++ rst ++ " 1)) - Find reset assertion times",
        "• (find (= " ++ rst ++ " 0)) - Find reset deassertion times",
        "• (length (find (= " ++ rst ++ " 1))) - Total reset duration",
        ""]) ++
    (match counterSignals allSignals with
     | [] => []
     | cnt :: _ =>
       ["COUNTER ANALYSIS (using " ++ cnt ++ "):",
        "• (find (= " ++ cnt ++ " 0)) - Find when counter is zero",
        "• (find (> " ++ cnt ++ " 10)) - Find when counter > 10",
        "• (length (find (>= " ++ cnt ++ " 1))) - Non-zero periods",
        ""]) ++
    (if 2 ≤ allSignals.length then
      let sig1 := allSignals.getD 0 ""
      let sig2 := allSignals.getD 1 ""
      ["MULTI-SIGNAL PATTERNS:",
       "• (find (&& (= " ++ sig1 ++ " 1) (= " ++ sig2 ++ " 0))) - " ++ sig1 ++
         " high AND " ++ sig2 ++ " low",
       "• (find (|| (= " ++ sig1 ++ " 1) (= " ++ sig2 ++ " 1))) - Either signal high",
       "• (find (&& (>= " ++ sig1 ++ " 1) (>= " ++ sig2 ++ " 1))) - Both signals non-zero",
       ""]
     else []) ++
    ["DEBUGGING PATTERNS:",
     "• (find (= overflow 1)) - Find overflow events (if overflow signal exists)",
     "• (find (&& (= valid 1) (= ready 0))) - Handshake stalls (if protocol signals exist)",
     "• (length (find (> " ++ allSignals.getLastD "" ++ " 15))) - Values out of range (example: >15)",
     "",
     "TIMING ANALYSIS:",
     "• (step 0) INDEX - Go to start and show time",
     "• (step 10) " ++ first ++ " - Advance 10 steps and show signal value",
     "• (find (= " ++ first ++ " target)) - Find specific signal values",
     "",
     "For more help: use get_wal_help with topics 'functions', 'debugging', or 'syntax'"]

/-- The 81-step counter trace shipped with the repository's tests
(`tests/traces/counter.vcd`): signals `tb.clk` (1 bit, toggling every step
starting low), `tb.reset` (1 bit) and `tb.dut.counter` (4 bits); the clock's
value at time `t` is `t mod 2`. -/
def counterTrace : TraceData where
  signals := ["tb.clk", "tb.reset", "tb.dut.counter"]
  width := fun s => if s = "tb.dut.counter" then 4 else 1
  val := fun s t => if s = "tb.clk" then (if t % 2 = 1 then 1 else 0) else 0
  len := 81
  stepErrMsg := "step out of range"

/-- A freshly loaded handle on the counter trace: cursor at time 0. -/
def counterHandle : TraceContainer where
  trace := counterTrace
  cursor := 0

/-- The same handle after some previous cursor-mutating operation left its
cursor at time 1. -/
def counterHandleAt1 : TraceContainer where
  trace := counterTrace
  cursor := 1

/-- A list starts with any of its own prefixes extended arbitrarily. -/
theorem charsStartsWith_append (p s : List Char) :
    charsStartsWith (p ++ s) p = true := by
  induction p with
  | nil => cases s <;> rfl
  | cons a p ih => simp [charsStartsWith, ih]

/-- A list that starts with a pattern contains it as a substring. -/
theorem charsHasSub_of_starts (s p : List Char)
    (h : charsStartsWith s p = true) : charsHasSub s p = true := by
  cases s with
  | nil =>
    cases p with
    | nil => rfl
    | cons b q => simp [charsStartsWith] at h
  | cons a s1 => simp [charsHasSub, h]

/-- Substring containment holds at any split position. -/
theorem charsHasSub_append (pre p post : List Char) :
    charsHasSub (pre ++ (p ++ post)) p = true := by
  induction pre with
  | nil => exact charsHasSub_of_starts _ _ (charsStartsWith_append p post)
  | cons a pre ih => simp [charsHasSub, ih]

/-- A string contains any middle segment of an append. -/
theorem strContains_append_mid (a p b : String) :
    strContains (a ++ p ++ b) p = true := by
  unfold strContains
  have h : (a ++ p ++ b).data = a.data ++ (p.data ++ b.data) := by
    rw [String.data_append, String.data_append, List.append_assoc]
  rw [h]
  exact charsHasSub_append a.data p.data b.data

/-- A mismatch at the first character refutes a starts-with test. -/
theorem charsStartsWith_cons_false (a b : Char) (s p : List Char)
    (h : (a == b) = false) :
    charsStartsWith (a :: s) (b :: p) = false := by
  simp [charsStartsWith, h]

/-- Head character of an append whose left part's data is known. -/
theorem data_append_head (a : String) (c : Char) (l : List Char)
    (ha : a.data = c :: l) (b : String) :
    (a ++ b).data = c :: (l ++ b.data) := by
  rw [String.data_append, ha]; rfl

/-- Claim C5: the trace cache keeps at most one entry per path and never
replaces an entry: after a successful `get_or_load`, a second call for the
same path returns the identical handle and the identical cache (so the size
does not grow); and a failed load returns the error with the cache exactly
unchanged (in particular an empty cache stays empty). -/
theorem c5_cache_invariant :
    (∀ (loader : String → Option TraceContainer)
       (cache : List (String × TraceContainer)) (path : String)
       (h : TraceContainer) (cache' : List (String × TraceContainer)),
      loadWaveform loader cache path = (some h, cache') →
      loadWaveform loader cache' path = (some h, cache')) ∧
    (∀ (loader : String → Option TraceContainer)
       (cache : List (String × TraceContainer)) (path : String),
      lookupCache cache path = none → loader path = none →
      loadWaveform loader cache path = (none, cache)) := by
  constructor
  · intro loader cache path h cache' hfirst
    unfold loadWaveform at hfirst ⊢
    cases hl : lookupCache cache path with
    | some c =>
      rw [hl] at hfirst
      obtain ⟨hc, rfl⟩ : some c = some h ∧ cache = cache' := by
        simpa using hfirst
      obtain rfl : c = h := by simpa using hc
      rw [hl]
    | none =>
      rw [hl] at hfirst
      cases hload : loader path with
      | none => rw [hload] at hfirst; simp at hfirst
      | some c =>
        rw [hload] at hfirst
        obtain ⟨hc, rfl⟩ : some c = some h ∧ (path, c) :: cache = cache' := by
          simpa using hfirst
        obtain rfl : c = h := by simpa using hc
        simp [lookupCache]
  · intro loader cache path hl hload
    unfold loadWaveform
    rw [hl, hload]

/-- Witness for claim C5 at concrete inputs: a loader that succeeds on
`a.vcd` fills the cache once and the second call hits it; a loader that
always fails leaves the empty cache empty. -/
theorem c5_cache_invariant_witness :
    loadWaveform (fun _ => some counterHandle) [("a.vcd", counterHandle)] "a.vcd" =
      (some counterHandle, [("a.vcd", counterHandle)]) ∧
    loadWaveform (fun _ => none) [] "bad.vcd" = (none, []) :=
  ⟨c5_cache_invariant.1 (fun _ => some counterHandle) [] "a.vcd" counterHandle
      [("a.vcd", counterHandle)] rfl,
   c5_cache_invariant.2 (fun _ => none) [] "bad.vcd" rfl rfl⟩

/-- Claim C9: requesting a signal absent from the handle's signal index
returns the not-found report naming the exact requested signal, and the
container (in particular its time cursor) is returned unchanged — the
check happens before any stepping. -/
theorem c9_signal_not_found (wf : String) (c : TraceContainer) (sig : String)
    (startT endT : Int) (h : sig ∉ c.trace.signals) :
    getSignalTransitions wf c sig startT endT =
      (["Error: Signal '" ++ sig ++ "' not found in " ++ wf], c) := by
  unfold getSignalTransitions
  rw [if_pos h]

/-- Witness for claim C9: the counter trace has no signal `nonexistent`;
the report names it and the handle's cursor stays at 0. -/
theorem c9_signal_not_found_witness :
    getSignalTransitions "counter.vcd" counterHandle "nonexistent" 0 0 =
      (["Error: Signal 'nonexistent' not found in counter.vcd"], counterHandle) :=
  c9_signal_not_found "counter.vcd" counterHandle "nonexistent" 0 0 (by decide)

/-- String append is associative (on the data level). -/
theorem strAppend_assoc (a b c : String) : a ++ b ++ c = a ++ (b ++ c) := by
  apply String.ext
  rw [String.data_append, String.data_append, String.data_append,
    String.data_append, List.append_assoc]

/-- Claim C8: when the filter pattern fails to compile, `list_signals`
returns exactly the three-line error report: it is non-empty, does not
raise, and its middle line carries both the literal invalid pattern text
and the compiler's original error message as substrings. -/
theorem c8_invalid_pattern_report
    (compile : String → Except String (String → Bool)) (wf : String)
    (c : TraceContainer) (pattern e : String)
    (hp : pattern.isEmpty = false) (hc : compile pattern = .error e) :
    getSignalList compile wf c (some pattern) =
      ["Signals in " ++ wf ++ ":",
       "Invalid regex pattern '" ++ pattern ++ "': " ++ e,
       "Please provide a valid regex pattern."] ∧
    getSignalList compile wf c (some pattern) ≠ [] ∧
    strContains ("Invalid regex pattern '" ++ pattern ++ "': " ++ e) pattern = true ∧
    strContains ("Invalid regex pattern '" ++ pattern ++ "': " ++ e) e = true := by
  have hrep : getSignalList compile wf c (some pattern) =
      ["Signals in " ++ wf ++ ":",
       "Invalid regex pattern '" ++ pattern ++ "': " ++ e,
       "Please provide a valid regex pattern."] := by
    unfold getSignalList
    simp only [Option.getD_some, hp, Bool.false_eq_true, if_false, hc]
  refine ⟨hrep, ?_, ?_, ?_⟩
  · rw [hrep]; simp
  · rw [strAppend_assoc]
    exact strContains_append_mid _ _ _
  · have h2 : "Invalid regex pattern '" ++ pattern ++ "': " ++ e =
        "Invalid regex pattern '" ++ pattern ++ "': " ++ e ++ "" := by
      rw [String.append_empty]
    rw [h2]
    exact strContains_append_mid _ _ _

/-- Witness for claim C8: the invalid pattern `[` with a compiler that
reports `unterminated character set`. -/
theorem c8_invalid_pattern_witness :
    getSignalList (fun _ => .error "unterminated character set") "counter.vcd"
        counterHandle (some "[") =
      ["Signals in counter.vcd:",
       "Invalid regex pattern '[': unterminated character set",
       "Please provide a valid regex pattern."] ∧
    strContains "Invalid regex pattern '[': unterminated character set" "[" = true := by
  have h := c8_invalid_pattern_report (fun _ => .error "unterminated character set")
    "counter.vcd" counterHandle "[" "unterminated character set" (by decide) rfl
  exact ⟨h.1, h.2.2.1⟩

/-- Claim C10: an empty filter pattern behaves exactly like an absent one:
the result does not depend on the regex compiler at all (no regex is
compiled, so no pattern error is possible), the report is the unfiltered
list of all signals in native enumeration order, and no line of the report
starts with `Filter pattern`. -/
theorem c10_empty_pattern_no_filter
    (compile compile2 : String → Except String (String → Bool))
    (wf : String) (c : TraceContainer) :
    getSignalList compile wf c (some "") = getSignalList compile2 wf c none ∧
    getSignalList compile wf c (some "") =
      ["Signals in " ++ wf ++ ":"] ++ c.trace.signals.map (signalLine c) ++
        (if c.trace.signals.isEmpty then ["  No signals found in waveform file."]
         else []) ∧
    ∀ l ∈ getSignalList compile wf c (some ""),
      strStartsWith l "Filter pattern" = false := by
  have hrep : getSignalList compile wf c (some "") =
      ["Signals in " ++ wf ++ ":"] ++ c.trace.signals.map (signalLine c) ++
        (if c.trace.signals.isEmpty then ["  No signals found in waveform file."]
         else []) := rfl
  refine ⟨rfl, hrep, ?_⟩
  intro l hl
  rw [hrep] at hl
  have hhead : ∀ (ch : Char) (tl : List Char), l.data = ch :: tl →
      (ch == 'F') = false → strStartsWith l "Filter pattern" = false := by
    intro ch tl hdata hne
    unfold strStartsWith
    rw [hdata]
    exact charsStartsWith_cons_false ch 'F' tl _ hne
  rcases List.mem_append.mp hl with hl1 | hl2
  · rcases List.mem_append.mp hl1 with hl3 | hl4
    · -- the header line
      obtain rfl : l = "Signals in " ++ wf ++ ":" := by simpa using hl3
      exact hhead 'S' (("ignals in ".data ++ wf.data) ++ ":".data)
        (data_append_head ("Signals in " ++ wf) 'S' ("ignals in ".data ++ wf.data)
          (data_append_head "Signals in " 'S' "ignals in ".data rfl wf) ":")
        (by decide)
    · -- a signal line: starts with two spaces
      obtain ⟨s, _, rfl⟩ := List.mem_map.mp hl4
      have h1 : ("  " ++ s).data = ' ' :: (" ".data ++ s.data) :=
        data_append_head "  " ' ' " ".data rfl s
      have h2 := data_append_head _ ' ' _ h1 " ["
      have h3 := data_append_head _ ' ' _ h2 (toString (c.trace.width s))
      have h4 := data_append_head _ ' ' _ h3 " "
      have h5 := data_append_head _ ' ' _ h4
        (if c.trace.width s = 1 then "bit" else "bits")
      have h6 := data_append_head _ ' ' _ h5 "]"
      exact hhead ' ' _ h6 (by decide)
  · -- the no-signals line
    have : l = "  No signals found in waveform file." := by
      cases h : c.trace.signals.isEmpty with
      | false => rw [h] at hl2; simp at hl2
      | true => rw [h] at hl2; simpa using hl2
    rw [this]
    decide

/-- Witness for claim C10 at a concrete line of a concrete report: the
header line of the empty-pattern report does not start with
`Filter pattern`. -/
theorem c10_empty_pattern_witness :
    strStartsWith "Signals in counter.vcd:" "Filter pattern" = false :=
  (c10_empty_pattern_no_filter (fun _ => .error "boom") (fun _ => .ok (fun _ => true))
      "counter.vcd" counterHandle).2.2 "Signals in counter.vcd:" (by decide)

/-- Claim C1 (amended): when the start time exceeds the effective end time,
the scan loop never executes: the report shows zero transitions and the
literal (possibly backwards) range string, and the reported "Total time
steps checked" is 0 — the loop counter never advances past start_time — not
the signed difference between end time and start time. -/
theorem c1_backwards_range (wf : String) (c : TraceContainer) (sig : String)
    (startT endT : Int) (hsig : sig ∈ c.trace.signals)
    (hlt : (if endT = 0 then walLengthFindTrue c - 1 else endT) < startT)
    (c1 : TraceContainer) (hstep : c.stepBy startT = some c1) :
    (getSignalTransitions wf c sig startT endT).1 =
      ["Signal analysis for '" ++ sig ++ "':",
       "  Width: " ++ toString (c.trace.width sig) ++ " " ++
         (if c.trace.width sig = 1 then "bit" else "bits"),
       "  Initial value at time " ++ toString startT ++ ": " ++
         toString (c1.signalValue sig),
       "",
       "No transitions detected in time range.",
       "",
       "Time range analyzed: " ++ toString startT ++ " to " ++
         toString (if endT = 0 then walLengthFindTrue c - 1 else endT),
       "Total time steps checked: " ++ toString (0 : Int)] := by
  have hfuel : ((if endT = 0 then walLengthFindTrue c - 1 else endT) - startT).toNat
      = 0 := Int.toNat_of_nonpos (by omega)
  unfold getSignalTransitions
  rw [if_neg (not_not_intro hsig), hstep]
  simp only [hfuel, scanLoop, List.map_nil, List.isEmpty_nil, if_true, sub_self]
  by_cases hE : endT = 0 <;> simp [hE, List.append_assoc, strAppend_assoc]

/-- Counterexample to claim C1 as stated: the scan of `tb.clk` from 50 to 30
on the counter trace reports "Total time steps checked: 0"; the signed
difference end - start = -20 asserted by the claim appears nowhere in the
report.  The zero-transition and literal-range parts do hold. -/
theorem c1_steps_checked_counterexample :
    "Total time steps checked: 0" ∈
      (getSignalTransitions "counter.vcd" counterHandle "tb.clk" 50 30).1 ∧
    "Total time steps checked: -20" ∉
      (getSignalTransitions "counter.vcd" counterHandle "tb.clk" 50 30).1 ∧
    "Time range analyzed: 50 to 30" ∈
      (getSignalTransitions "counter.vcd" counterHandle "tb.clk" 50 30).1 ∧
    "No transitions detected in time range." ∈
      (getSignalTransitions "counter.vcd" counterHandle "tb.clk" 50 30).1 := by
  decide

/-- Witness for claim C1's amended theorem at the spec's scenario
start_time = 50, end_time = 30 on the counter trace. -/
theorem c1_backwards_range_witness :
    (getSignalTransitions "counter.vcd" counterHandle "tb.clk" 50 30).1 =
      ["Signal analysis for 'tb.clk':",
       "  Width: 1 bit",
       "  Initial value at time 50: 0",
       "",
       "No transitions detected in time range.",
       "",
       "Time range analyzed: 50 to 30",
       "Total time steps checked: 0"] := by
  have h := c1_backwards_range "counter.vcd" counterHandle "tb.clk" 50 30
    (by decide) (by decide) { trace := counterTrace, cursor := 50 } rfl
  exact h.trans (by decide)

/-- Claim C3 (amended): `container.step(start_time)` advances the cursor by
`start_time` RELATIVE to wherever the cached handle's cursor currently is
(step is the only navigation primitive; there is no absolute seek), so the
reported initial value is the signal's value at time `cursor + start_time`;
this equals the value at absolute time `start_time` exactly when the
handle's cursor was at 0 (e.g. a freshly loaded handle). -/
theorem c3_initial_value_relative (wf : String) (c : TraceContainer)
    (sig : String) (startT endT : Int) (hsig : sig ∈ c.trace.signals)
    (c1 : TraceContainer) (hstep : c.stepBy startT = some c1) :
    ("  Initial value at time " ++ toString startT ++ ": " ++
        toString (c.trace.val sig (c.cursor + startT))) ∈
      (getSignalTransitions wf c sig startT endT).1 ∧
    (c.cursor = 0 →
      c.trace.val sig (c.cursor + startT) = c.trace.val sig startT) := by
  have hc1 : c1 = { c with cursor := c.cursor + startT } := by
    have hstep2 : (if 0 ≤ c.cursor + startT ∧ c.cursor + startT < (c.trace.len : Int)
        then some { c with cursor := c.cursor + startT } else none) = some c1 := hstep
    split at hstep2
    · exact (Option.some.inj hstep2).symm
    · cases hstep2
  constructor
  · unfold getSignalTransitions
    rw [if_neg (not_not_intro hsig), hstep]
    have hv : c1.signalValue sig = c.trace.val sig (c.cursor + startT) := by
      rw [hc1]; rfl
    simp [hv, List.mem_append]
  · intro h0
    rw [h0, zero_add]

/-- Counterexample to claim C3 as stated: on a cached handle whose previous
operation left the cursor at time 1, scanning `tb.clk` with start_time = 0
reports initial value 1 (the value at cursor + start = 1), although the
signal's value at absolute time 0 is 0. -/
theorem c3_stale_cursor_counterexample :
    "  Initial value at time 0: 1" ∈
      (getSignalTransitions "counter.vcd" counterHandleAt1 "tb.clk" 0 30).1 ∧
    counterTrace.val "tb.clk" 0 = 0 ∧
    "  Initial value at time 0: 0" ∉
      (getSignalTransitions "counter.vcd" counterHandleAt1 "tb.clk" 0 30).1 := by
  decide

/-- Witness for claim C3's amended theorem: on the freshly loaded handle
(cursor 0) the initial value reported for start_time = 5 is the value at
absolute time 5, namely 1. -/
theorem c3_initial_value_witness :
    "  Initial value at time 5: 1" ∈
      (getSignalTransitions "counter.vcd" counterHandle "tb.clk" 5 30).1 := by
  have h := c3_initial_value_relative "counter.vcd" counterHandle "tb.clk" 5 30
    (by decide) { trace := counterTrace, cursor := 5 } rfl
  exact h.1

/-- Claim C7: with the `end_time = 0` sentinel, the effective end time is the
trace's total length minus 1, resolved through the external evaluation of
`(length (find true))` (81 on the counter trace, so the analyzed range is
`0 to 80`); on the 81-step counter trace whose `tb.clk` toggles every step
starting low, the scan from 0 reports initial value 0, a `0 -> 1` transition
at time 1, a `1 -> 0` transition at time 2, and 80 total steps checked. -/
theorem c7_full_range_scan :
    walLengthFindTrue counterHandle = 81 ∧
    "  Initial value at time 0: 0" ∈
      (getSignalTransitions "counter.vcd" counterHandle "tb.clk" 0 0).1 ∧
    "  Time 1: 0 -> 1" ∈
      (getSignalTransitions "counter.vcd" counterHandle "tb.clk" 0 0).1 ∧
    "  Time 2: 1 -> 0" ∈
      (getSignalTransitions "counter.vcd" counterHandle "tb.clk" 0 0).1 ∧
    "Time range analyzed: 0 to 80" ∈
      (getSignalTransitions "counter.vcd" counterHandle "tb.clk" 0 0).1 ∧
    "Total time steps checked: 80" ∈
      (getSignalTransitions "counter.vcd" counterHandle "tb.clk" 0 0).1 := by
  decide

/-- Claim C2 (amended): for a successful evaluation returning a sequence of
more than 5 elements, the report appends a summary — the total length, the
first 5 indexed elements, and an "... and N more" line — in addition to
(not instead of) the full rendering of the sequence on the `Result:`
line. -/
theorem c2_long_sequence_summary (wf expr : String) (xs : List Int)
    (signals : List String) (h : 5 < xs.length) :
    ("Result: " ++ pyStr (.list xs)) ∈
      executeWalExpression wf expr (.ok (.list xs)) signals ∧
    ("Result length: " ++ toString xs.length) ∈
      executeWalExpression wf expr (.ok (.list xs)) signals ∧
    "First few elements:" ∈
      executeWalExpression wf expr (.ok (.list xs)) signals ∧
    (∀ l ∈ (xs.take 5).enum.map
        (fun p => "  [" ++ toString p.1 ++ "]: " ++ toString p.2),
      l ∈ executeWalExpression wf expr (.ok (.list xs)) signals) ∧
    ("  ... and " ++ toString (xs.length - 5) ++ " more") ∈
      executeWalExpression wf expr (.ok (.list xs)) signals := by
  have hrep : executeWalExpression wf expr (.ok (.list xs)) signals =
      ["WAL Expression: " ++ expr,
       "Waveform file: " ++ wf,
       "",
       "Result: " ++ pyStr (.list xs),
       "Result type: " ++ pyTypeName (.list xs)] ++
      (["Result length: " ++ toString xs.length, "First few elements:"] ++
        (xs.take 5).enum.map
          (fun p => "  [" ++ toString p.1 ++ "]: " ++ toString p.2) ++
        ["  ... and " ++ toString (xs.length - 5) ++ " more"]) := by
    unfold executeWalExpression
    dsimp only
    rw [if_pos h, if_pos h]
  rw [hrep]
  refine ⟨?_, ?_, ?_, ?_, ?_⟩
  · simp [List.mem_append]
  · simp [List.mem_append]
  · simp [List.mem_append]
  · intro l hl
    simp [List.mem_append, hl]
  · simp [List.mem_append]

/-- Counterexample to claim C2 as stated: for the 6-element result the
report still renders the full sequence on the `Result:` line, so the
summary is in addition to — not "rather than" — the full rendering. -/
theorem c2_full_render_counterexample :
    "Result: [0, 1, 2, 3, 4, 5]" ∈
      executeWalExpression "counter.vcd" "(find true)"
        (.ok (.list [0, 1, 2, 3, 4, 5])) [] ∧
    "Result length: 6" ∈
      executeWalExpression "counter.vcd" "(find true)"
        (.ok (.list [0, 1, 2, 3, 4, 5])) [] := by
  decide

/-- Witness for claim C2's amended theorem at the 6-element sequence
`[0, 1, 2, 3, 4, 5]`. -/
theorem c2_long_sequence_witness :
    "Result length: 6" ∈
      executeWalExpression "counter.vcd" "(find true)"
        (.ok (.list [0, 1, 2, 3, 4, 5])) [] ∧
    "  [2]: 2" ∈
      executeWalExpression "counter.vcd" "(find true)"
        (.ok (.list [0, 1, 2, 3, 4, 5])) [] ∧
    "  ... and 1 more" ∈
      executeWalExpression "counter.vcd" "(find true)"
        (.ok (.list [0, 1, 2, 3, 4, 5])) [] := by
  have h := c2_long_sequence_summary "counter.vcd" "(find true)"
    [0, 1, 2, 3, 4, 5] [] (by decide)
  exact ⟨h.2.1, h.2.2.2.1 "  [2]: 2" (by decide), h.2.2.2.2⟩

/-- Claim C4 (amended): the example synthesizer's clock, reset and counter
categories are INDEPENDENT case-insensitive substring checks — not mutually
exclusive and not applied in priority order, so one name can belong to
several of them (and serve as the representative of each); only the data
("other") category is defined by exclusion from the three others. -/
theorem c4_category_membership (sigs : List String) (s : String) :
    (s ∈ clockSignals sigs ↔ s ∈ sigs ∧ strContains (strToLower s) "clk" = true) ∧
    (s ∈ resetSignals sigs ↔ s ∈ sigs ∧
      (strContains (strToLower s) "reset" || strContains (strToLower s) "rst") = true) ∧
    (s ∈ counterSignals sigs ↔ s ∈ sigs ∧
      (strContains (strToLower s) "counter" || strContains (strToLower s) "count") = true) ∧
    (s ∈ dataSignals sigs ↔ s ∈ sigs ∧ s ∉ clockSignals sigs ∧
      s ∉ resetSignals sigs ∧ s ∉ counterSignals sigs) := by
  refine ⟨?_, ?_, ?_, ?_⟩
  · simp [clockSignals, List.mem_filter]
  · simp [resetSignals, List.mem_filter]
  · simp [counterSignals, List.mem_filter]
  · simp only [dataSignals, List.mem_filter, Bool.not_eq_true',
      List.contains, List.elem_eq_mem, decide_eq_false_iff_not,
      List.mem_append, not_or]
    tauto

/-- Counterexample to claim C4 as stated: the signal name `clk_count`
contains both `clk` and `count`, lands in BOTH the clock and the counter
category (no priority order is applied), and is used as the representative
of both the clock-analysis and the counter-analysis example sections. -/
theorem c4_overlap_counterexample :
    "clk_count" ∈ clockSignals ["clk_count"] ∧
    "clk_count" ∈ counterSignals ["clk_count"] ∧
    "CLOCK ANALYSIS (using clk_count):" ∈ getWalExamples "f.vcd" ["clk_count"] ∧
    "COUNTER ANALYSIS (using clk_count):" ∈ getWalExamples "f.vcd" ["clk_count"] := by
  decide

/-- Claim C6 (amended): the query executor's error classification is by
INDEPENDENT substring checks on the lowered message — the missing-name and
type-mismatch hint blocks are each appended when their substring matches,
so both can appear together; the generic block appears exactly when neither
matched; the signal-specific examples (3 queries built from the first
available signal) are appended when the trace exposes at least one signal;
the raw error is rendered in the report, never propagated as an
exception. -/
theorem c6_error_suggestions (wf expr e : String) (signals : List String) :
    (strContains (strToLower e) "undefined" = true →
      "Variable/function not found. Try:" ∈
        executeWalExpression wf expr (.error e) signals) ∧
    (strContains (strToLower e) "argument must be a list" = true →
      "Function expects a list. Try:" ∈
        executeWalExpression wf expr (.error e) signals) ∧
    (strContains (strToLower e) "undefined" = false →
      strContains (strToLower e) "argument must be a list" = false →
      "Common WAL patterns to try:" ∈
        executeWalExpression wf expr (.error e) signals) ∧
    (∀ first rest, signals = first :: rest →
      ("Examples with your signals (using '" ++ first ++ "'):") ∈
        executeWalExpression wf expr (.error e) signals ∧
      ("• (find (= " ++ first ++ " 1)) - Find when " ++ first ++ " is high") ∈
        executeWalExpression wf expr (.error e) signals ∧
      ("• (count (= " ++ first ++ " 0)) - Count when " ++ first ++ " is low") ∈
        executeWalExpression wf expr (.error e) signals) ∧
    ("Execution Error: " ++ e) ∈
      executeWalExpression wf expr (.error e) signals := by
  have hrep : executeWalExpression wf expr (.error e) signals =
      ["WAL Expression: " ++ expr, "Waveform file: " ++ wf, "",
       "Execution Error: " ++ e, ""] ++
      getWalErrorSuggestions e signals ++
      ["", "For more help: use get_wal_help with topics 'examples', 'functions', or 'debugging'"] := by
    unfold executeWalExpression
    dsimp only
  rw [hrep]
  refine ⟨?_, ?_, ?_, ?_, by simp [List.mem_append]⟩
  · intro h1
    unfold getWalErrorSuggestions
    rw [h1]
    cases h2 : strContains (strToLower e) "argument must be a list" <;>
      simp [List.mem_append]
  · intro h2
    unfold getWalErrorSuggestions
    rw [h2]
    cases h1 : strContains (strToLower e) "undefined" <;>
      simp [List.mem_append]
  · intro h1 h2
    unfold getWalErrorSuggestions
    rw [h1, h2]
    simp [List.mem_append]
  · intro first rest hsig
    unfold getWalErrorSuggestions
    rw [hsig]
    cases h1 : strContains (strToLower e) "undefined" <;>
      cases h2 : strContains (strToLower e) "argument must be a list" <;>
      refine ⟨?_, ?_, ?_⟩ <;> simp [List.mem_append]

/-- Counterexample to claim C6 as stated: an error message containing both
`undefined` and `argument must be a list` triggers BOTH hint blocks, so the
classification is not into exactly one kind. -/
theorem c6_both_kinds_counterexample :
    "Variable/function not found. Try:" ∈
      executeWalExpression "counter.vcd" "(foo)"
        (.error "undefined: argument must be a list") ["tb.clk"] ∧
    "Function expects a list. Try:" ∈
      executeWalExpression "counter.vcd" "(foo)"
        (.error "undefined: argument must be a list") ["tb.clk"] := by
  decide

/-- Witness for claim C6's amended theorem: an `undefined`-class error on a
trace exposing `tb.clk` yields the missing-name hints, the three
signal-specific example queries, and the rendered error line. -/
theorem c6_error_suggestions_witness :
    "Variable/function not found. Try:" ∈
      executeWalExpression "counter.vcd" "(x)" (.error "undefined name x")
        ["tb.clk"] ∧
    "Examples with your signals (using 'tb.clk'):" ∈
      executeWalExpression "counter.vcd" "(x)" (.error "undefined name x")
        ["tb.clk"] ∧
    "Execution Error: undefined name x" ∈
      executeWalExpression "counter.vcd" "(x)" (.error "undefined name x")
        ["tb.clk"] := by
  have h := c6_error_suggestions "counter.vcd" "(x)" "undefined name x" ["tb.clk"]
  exact ⟨h.1 (by decide), (h.2.2.2.1 "tb.clk" [] rfl).1, h.2.2.2.2⟩

end WaveformMcp
